import Mathlib

/-!
Verification development for the GoRocky safety rule engine.

The repository contains two implementations of the same engine:
the Go backend (`runSafetyEngine` in the server source) and the
client-side JavaScript fallback (`runSafetyEngine` in the frontend
source, which also hosts `mergeWithRules`, `higherRiskLevel` and
`mergeInteractionLists`).  Both are embedded below; definitions
prefixed `go` come from the Go file, those prefixed `js` from the
JavaScript file.  Float64 arithmetic is modelled by `ℚ`; Go `map`
lookup misses and JavaScript falsy coercions are modelled explicitly
where they matter and noted in comments.
-/

namespace GoRocky

/-- Lowercase a string character by character (`strings.ToLower` /
`String.prototype.toLowerCase` on the ASCII data used by the engine). -/
def toLowerStr (s : String) : String :=
  String.mk (s.data.map Char.toLower)

/-- Drop leading whitespace from a character list. -/
def dropLeadingWs : List Char → List Char
  | [] => []
  | c :: t => if c.isWhitespace then dropLeadingWs t else c :: t

/-- Trim whitespace from both ends (`strings.TrimSpace` / `String.prototype.trim`). -/
def trimStr (s : String) : String :=
  String.mk (dropLeadingWs ((dropLeadingWs s.data.reverse).reverse))

/-- Split a character list at every separator character, keeping empty segments
(the semantics of both `strings.FieldsFunc`-plus-filter and `String.split`). -/
def splitChars (p : Char → Bool) : List Char → List (List Char)
  | [] => [[]]
  | c :: t =>
    match splitChars p t with
    | [] => [[]]
    | s :: rest => if p c then [] :: s :: rest else (c :: s) :: rest

/-- Does `needle` occur at the head of `hay`? -/
def leadMatch : List Char → List Char → Bool
  | [], _ => true
  | _ :: _, [] => false
  | n :: ns, h :: hs => n = h && leadMatch ns hs

/-- Does `needle` occur anywhere inside `hay`?  (`strings.Contains` /
`String.prototype.includes`.) -/
def occursIn (needle : List Char) : List Char → Bool
  | [] => leadMatch needle []
  | c :: t => leadMatch needle (c :: t) || occursIn needle t

/-- Substring containment on strings. -/
def strContains (s pat : String) : Bool :=
  occursIn pat.data s.data

/-- Definition of `normalizeList`: lowercase, split on comma/semicolon, trim, drop empties.
The Go version (`strings.FieldsFunc` + trim + non-empty filter) and the JS
version (`split(/[,;]/)` + trim + `filter(Boolean)`) produce this same list. -/
def normalizeList (text : String) : List String :=
  (((splitChars (fun c => c = ',' || c = ';') (toLowerStr text).data).map
      (fun seg => trimStr (String.mk seg))).filter (fun t => t ≠ ""))

/-- Definition of `hasClassToken`: some token contains some class-member substring. -/
def hasClassToken (tokens : List String) (cls : List String) : Bool :=
  tokens.any (fun t => cls.any (fun drug => strContains t drug))

/-- Definition of `containsString` (Go) / `Array.prototype.includes` (JS): exact membership. -/
def containsString (values : List String) (target : String) : Bool :=
  values.any (fun v => v = target)

def pde5iClass : List String :=
  ["sildenafil", "tadalafil", "vardenafil", "avanafil"]

def nitrateClass : List String :=
  ["nitroglycerin", "isosorbide", "isosorbide dinitrate", "isosorbide mononitrate"]

def alphaBlockerClass : List String :=
  ["tamsulosin", "doxazosin", "terazosin", "alfuzosin"]

def cyp3a4Class : List String :=
  ["ketoconazole", "itraconazole", "ritonavir", "cobicistat", "clarithromycin"]

/-- Definition of `hasClassTokenByName`: dispatch on the class name; unknown names match nothing. -/
def hasClassTokenByName (tokens : List String) (className : String) : Bool :=
  if className = "pde5i" then hasClassToken tokens pde5iClass
  else if className = "nitrates" then hasClassToken tokens nitrateClass
  else if className = "alphaBlockers" then hasClassToken tokens alphaBlockerClass
  else if className = "cyp3a4Inhibitors" then hasClassToken tokens cyp3a4Class
  else false

/-- Severity weight table; a missing key yields 0 (Go zero value / JS `|| 0`). -/
def severityWeight (s : String) : Int :=
  if s = "HIGH" then 40 else if s = "MEDIUM" then 20 else if s = "LOW" then 10 else 0

structure PatientData where
  name : String := ""
  weight : ℚ := 0
  height : ℚ := 0
  age : Int := 0
  bmi : ℚ := 0
  bpSystolic : ℚ := 0
  bpDiastolic : ℚ := 0
  smoking : String := ""
  alcohol : String := ""
  exercise : String := ""
  conditions : List String := []
  medications : String := ""
  medicationDetails : String := ""
  allergies : String := ""
  complaint : String := ""
deriving Repr, DecidableEq

structure Interaction where
  pair : String
  severity : String
  note : String
deriving Repr, DecidableEq

structure Contraindication where
  conditionOrAllergy : String
  severity : String
  note : String
deriving Repr, DecidableEq

structure DosingConcern where
  factor : String
  severity : String
  recommendation : String
deriving Repr, DecidableEq

structure Plan where
  medication : String
  dosage : String
  duration : String
  rationale : String
deriving Repr, DecidableEq

structure Alternative where
  option : String
  confidence : ℚ
deriving Repr, DecidableEq

structure RecommendationConfidence where
  plan : ℚ
deriving Repr, DecidableEq

structure DiagnosticResult where
  riskScore : Int
  riskLevel : String
  issues : List String
  interactions : List Interaction
  contraindications : List Contraindication
  dosingConcerns : List DosingConcern
  plan : Plan
  alternatives : List Alternative
  confidenceScore : ℚ
  recommendationConfidence : RecommendationConfidence
  source : String
deriving Repr, DecidableEq

structure RuleMatch where
  drugClassA : String := ""
  drugClassB : String := ""
  condition : String := ""
  requiresDrugClass : String := ""
deriving Repr, DecidableEq

structure Rule where
  id : String
  type : String
  severity : String
  matchSpec : RuleMatch
  note : String
deriving Repr, DecidableEq

/-- Table `ruleDB` / `DRUG_RULE_DB`: identical in both implementations. -/
def ruleDB : List Rule :=
  [ { id := "nitrates+pde5i", type := "interaction", severity := "HIGH",
      matchSpec := { drugClassA := "nitrates", drugClassB := "pde5i" },
      note := "Risk of profound hypotension; avoid co-administration." },
    { id := "alpha+pde5i", type := "interaction", severity := "MEDIUM",
      matchSpec := { drugClassA := "alphaBlockers", drugClassB := "pde5i" },
      note := "Additive hypotension; separate dosing and start low." },
    { id := "cyp3a4+pde5i", type := "interaction", severity := "MEDIUM",
      matchSpec := { drugClassA := "cyp3a4Inhibitors", drugClassB := "pde5i" },
      note := "Higher PDE5i levels; use lowest dose and monitor." },
    { id := "pregnancy+pde5i", type := "contra", severity := "MEDIUM",
      matchSpec := { condition := "pregnant", requiresDrugClass := "pde5i" },
      note := "Safety in pregnancy not established; avoid PDE5 inhibitors." },
    { id := "renal+pde5i", type := "dosing", severity := "MEDIUM",
      matchSpec := { condition := "kidney disease" },
      note := "Max 2.5-5mg daily; monitor closely." } ]

/-! ### Go backend engine (`runSafetyEngine` in the server source) -/

def goMeds (d : PatientData) : List String := normalizeList d.medications

def goAllergies (d : PatientData) : List String := normalizeList d.allergies

/-- Go: `strings.ToLower(strings.TrimSpace(c))` for each condition. -/
def goConditions (d : PatientData) : List String :=
  d.conditions.map (fun c => toLowerStr (trimStr c))

def goHasPDE5i (d : PatientData) : Bool := hasClassToken (goMeds d) pde5iClass

def goHasNitrates (d : PatientData) : Bool := hasClassToken (goMeds d) nitrateClass

def goHasAlphaBlocker (d : PatientData) : Bool :=
  hasClassToken (goMeds d) alphaBlockerClass

def goHasCyp3a4 (d : PatientData) : Bool := hasClassToken (goMeds d) cyp3a4Class

def goPregnant (d : PatientData) : Bool := containsString (goConditions d) "pregnant"

def goKidneyDisease (d : PatientData) : Bool :=
  containsString (goConditions d) "kidney disease"

def goLiverDisease (d : PatientData) : Bool :=
  containsString (goConditions d) "liver disease"

def goHeartDisease (d : PatientData) : Bool :=
  containsString (goConditions d) "heart disease"

def goHypertension (d : PatientData) : Bool :=
  containsString (goConditions d) "hypertension"

def goAllergyToPde5i (d : PatientData) : Bool :=
  hasClassToken (goAllergies d) pde5iClass

def goAllergyToNitrates (d : PatientData) : Bool :=
  hasClassToken (goAllergies d) nitrateClass

/-- The three ad hoc interaction checks, in source order. -/
def adhocInteractions (pde5i nitrates alpha cyp : Bool) : List Interaction :=
  (if pde5i && nitrates then
    [⟨"Nitrates + PDE5i", "HIGH", "Risk of profound hypotension; avoid co-administration."⟩]
   else []) ++
  (if pde5i && alpha then
    [⟨"Alpha-blocker + PDE5i", "MEDIUM", "Additive hypotension; separate dosing and start low."⟩]
   else []) ++
  (if pde5i && cyp then
    [⟨"Strong CYP3A4 inhibitor + PDE5i", "MEDIUM", "Higher PDE5i levels; use lowest dose and monitor."⟩]
   else [])

/-- The `interaction`-typed arm of the rule-table loop, in table order. -/
def ruleInteractions (meds : List String) : List Interaction :=
  (ruleDB.filter (fun r =>
      r.type = "interaction" &&
      hasClassTokenByName meds r.matchSpec.drugClassA &&
      hasClassTokenByName meds r.matchSpec.drugClassB)).map
    (fun r => ⟨r.matchSpec.drugClassA ++ "+" ++ r.matchSpec.drugClassB, r.severity, r.note⟩)

/-- The `contra`-typed arm of the rule-table loop, in table order. -/
def ruleContraindications (meds conditions : List String) : List Contraindication :=
  (ruleDB.filter (fun r =>
      r.type = "contra" &&
      (r.matchSpec.condition ≠ "" && containsString conditions r.matchSpec.condition) &&
      (r.matchSpec.requiresDrugClass = "" ||
        hasClassTokenByName meds r.matchSpec.requiresDrugClass))).map
    (fun r => ⟨r.matchSpec.condition, r.severity, r.note⟩)

/-- The `dosing`-typed arm of the rule-table loop, in table order. -/
def ruleDosing (conditions : List String) : List DosingConcern :=
  (ruleDB.filter (fun r =>
      r.type = "dosing" &&
      (r.matchSpec.condition ≠ "" && containsString conditions r.matchSpec.condition))).map
    (fun r => ⟨r.matchSpec.condition, r.severity, r.note⟩)

/-- Go interactions list: ad hoc checks first, then the rule-table rows. -/
def goInteractions (d : PatientData) : List Interaction :=
  adhocInteractions (goHasPDE5i d) (goHasNitrates d) (goHasAlphaBlocker d) (goHasCyp3a4 d) ++
  ruleInteractions (goMeds d)

/-- The hard-coded contraindication checks appended after the rule loop,
in source order (nitrates, BP, allergies, pregnancy, heart disease, hypertension). -/
def adhocContraindications (d : PatientData) (nitrates allergyP allergyN pregnant heart
    hyper : Bool) : List Contraindication :=
  (if nitrates then
    [⟨"Nitrate therapy", "HIGH",
      "Concurrent nitrate use contraindicates PDE5 inhibitors due to hypotension risk."⟩]
   else []) ++
  (if d.bpSystolic ≥ 170 ∨ d.bpDiastolic ≥ 110 then
    [⟨"Severely elevated BP", "HIGH", "Uncontrolled hypertension; PDE5 inhibitors contraindicated."⟩]
   else if d.bpSystolic ≥ 150 ∨ d.bpDiastolic ≥ 95 then
    [⟨"Elevated BP", "MEDIUM", "Elevated blood pressure; use lowest dose and monitor."⟩]
   else []) ++
  (if allergyP then
    [⟨"PDE5 inhibitor allergy", "HIGH", "Do not prescribe PDE5 inhibitors."⟩]
   else []) ++
  (if allergyN then
    [⟨"Nitrate allergy", "HIGH", "Avoid nitrates and PDE5 co-prescribing."⟩]
   else []) ++
  (if pregnant then
    [⟨"Pregnancy", "MEDIUM", "Safety not established; avoid PDE5 inhibitors."⟩]
   else []) ++
  (if heart then
    [⟨"Heart Disease", "MEDIUM", "Assess hemodynamic reserve; prefer low dose or alternative."⟩]
   else []) ++
  (if hyper then
    [⟨"Hypertension", "MEDIUM", "Monitor BP; start low to avoid hypotension."⟩]
   else [])

def goContraindications (d : PatientData) : List Contraindication :=
  ruleContraindications (goMeds d) (goConditions d) ++
  adhocContraindications d (goHasNitrates d) (goAllergyToPde5i d) (goAllergyToNitrates d)
    (goPregnant d) (goHeartDisease d) (goHypertension d)

/-- The hard-coded dosing checks appended after the rule loop, in source order
(age, renal, hepatic, BMI, smoking, alcohol, exercise).  `seniorAge` is the
engine's age test (`data.Age >= 65` in Go; `age && age >= 65` in JS, which is
equivalent on integer inputs since `0 >= 65` is false). -/
def adhocDosing (bmi : ℚ) (seniorAge kidney liver : Bool)
    (smoking alcohol exercise : String) : List DosingConcern :=
  (if seniorAge then
    [⟨"Age >65", "MEDIUM", "Initiate at lowest dose; titrate cautiously."⟩]
   else []) ++
  (if kidney then
    [⟨"Renal impairment", "MEDIUM", "Max 2.5mg-5mg daily; monitor for hypotension."⟩]
   else []) ++
  (if liver then
    [⟨"Hepatic impairment", "MEDIUM", "Use lowest dose; consider avoiding if severe."⟩]
   else []) ++
  (if bmi ≥ 35 then
    [⟨"Obesity (BMI ≥35)", "MEDIUM", "Start lowest dose; monitor cardiovascular tolerance."⟩]
   else if bmi ≥ 30 then
    [⟨"Overweight (BMI ≥30)", "LOW", "Start low; encourage weight management and monitoring."⟩]
   else []) ++
  (if smoking = "current" then
    [⟨"Smoking", "LOW", "Counsel cessation; monitor CV risk with therapy."⟩]
   else []) ++
  (if alcohol = "heavy" then
    [⟨"Heavy alcohol use", "MEDIUM", "Avoid concurrent dosing; monitor BP and sedation risk."⟩]
   else []) ++
  (if exercise = "none" then
    [⟨"Sedentary", "LOW", "Encourage activity; monitor cardiometabolic risk."⟩]
   else [])

/-- Go lowercases and trims the lifestyle strings before comparison. -/
def goDosingConcerns (d : PatientData) : List DosingConcern :=
  ruleDosing (goConditions d) ++
  adhocDosing d.bmi (decide (d.age ≥ 65)) (goKidneyDisease d) (goLiverDisease d)
    (toLowerStr (trimStr d.smoking)) (toLowerStr (trimStr d.alcohol)) (toLowerStr (trimStr d.exercise))

def goFindingsCount (d : PatientData) : Nat :=
  (goInteractions d).length + (goContraindications d).length + (goDosingConcerns d).length

/-- The Go `maxSeverity` computation: three sequential loops.  The first loop
yields HIGH if any interaction is HIGH, else MEDIUM if any is MEDIUM; the
second loop runs only while not HIGH and promotes on contraindications; the
third never checks dosing concerns for HIGH, only for MEDIUM. -/
def goMaxSeverity (d : PatientData) : String :=
  let ms1 :=
    if (goInteractions d).any (fun i => i.severity = "HIGH") then "HIGH"
    else if (goInteractions d).any (fun i => i.severity = "MEDIUM") then "MEDIUM"
    else "LOW"
  let ms2 :=
    if ms1 = "HIGH" then ms1
    else if (goContraindications d).any (fun c => c.severity = "HIGH") then "HIGH"
    else if ms1 = "LOW" && (goContraindications d).any (fun c => c.severity = "MEDIUM") then
      "MEDIUM"
    else ms1
  if ms2 = "HIGH" then ms2
  else if ms2 = "LOW" && (goDosingConcerns d).any (fun x => x.severity = "MEDIUM") then
    "MEDIUM"
  else ms2

/-- Base-5 score before the upper clamp: sums severity weights over the three lists. -/
def goScoreRaw (d : PatientData) : Int :=
  ((goDosingConcerns d).foldl (fun acc x => acc + severityWeight x.severity)
    (((goContraindications d).foldl (fun acc c => acc + severityWeight c.severity)
      (((goInteractions d).foldl (fun acc i => acc + severityWeight i.severity) 5)))))

def goScore (d : PatientData) : Int :=
  if goScoreRaw d > 100 then 100 else goScoreRaw d

def goRiskLevel (d : PatientData) : String :=
  if goMaxSeverity d = "HIGH" ∨ goScore d ≥ 60 then "HIGH"
  else if goMaxSeverity d = "MEDIUM" ∨ goScore d ≥ 30 then "MEDIUM"
  else "LOW"

def issueStrings (inter : List Interaction) (contra : List Contraindication)
    (dosing : List DosingConcern) : List String :=
  let l :=
    inter.map (fun i => "[" ++ i.severity ++ "] Interaction: " ++ i.pair ++ " - " ++ i.note) ++
    contra.map (fun c =>
      "[" ++ c.severity ++ "] Contraindication: " ++ c.conditionOrAllergy ++ " - " ++ c.note) ++
    dosing.map (fun x => "[" ++ x.severity ++ "] Dosing: " ++ x.factor ++ " - " ++ x.recommendation)
  if l = [] then ["None"] else l

/-- Definition of `highBlocker`: any HIGH interaction or any HIGH contraindication. -/
def goHighBlocker (d : PatientData) : Bool :=
  (goInteractions d).any (fun i => i.severity = "HIGH") ||
  (goContraindications d).any (fun c => c.severity = "HIGH")

def goConservative (d : PatientData) : Bool :=
  decide (d.age ≥ 65) || goKidneyDisease d || goLiverDisease d || goHasAlphaBlocker d ||
  goHasCyp3a4 d || goHypertension d || goHeartDisease d

def goMedication (d : PatientData) : String :=
  if goHighBlocker d then "None" else "Tadalafil"

def goDosage (d : PatientData) : String :=
  if goHighBlocker d then "N/A"
  else if goConservative d then "2.5mg Daily" else "5mg Daily"

def goDuration (d : PatientData) : String :=
  if goHighBlocker d then "N/A"
  else if goConservative d then "30 Days" else "90 Days"

def rationaleTail (d : PatientData) (kidney liver alpha cyp heart pregnant : Bool) :
    List String :=
  (if d.age ≥ 65 then ["Age >65"] else []) ++
  (if kidney then ["Renal impairment"] else []) ++
  (if liver then ["Hepatic impairment"] else []) ++
  (if alpha then ["Alpha-blocker co-therapy"] else []) ++
  (if cyp then ["CYP3A4 inhibitor present"] else []) ++
  (if heart then ["Cardiovascular history"] else []) ++
  (if pregnant then ["Pregnancy"] else [])

def goRationale (d : PatientData) : String :=
  String.intercalate "; "
    ((if goMedication d = "None" then
        ["Safety blockers present; pharmacotherapy deferred."]
      else
        ["PDE5 inhibitor indicated; starting conservatively due to risk factors."]) ++
     rationaleTail d (goKidneyDisease d) (goLiverDisease d) (goHasAlphaBlocker d)
       (goHasCyp3a4 d) (goHeartDisease d) (goPregnant d))

/-- Go `confidence = 1 - score/120`, floored at 0.6; computed from the
pre-override score. -/
def goConfidence (d : PatientData) : ℚ :=
  let c : ℚ := 1 - (goScore d : ℚ) / 120
  if c < 3/5 then 3/5 else c

def goPlanConfidence (d : PatientData) : ℚ :=
  if goMedication d = "None" then 2/5 else goConfidence d

def goAlternatives (d : PatientData) : List Alternative :=
  if goMedication d = "None" then
    [⟨"Vacuum erection device", 13/20⟩, ⟨"Specialist referral", 7/10⟩]
  else
    [⟨"Sildenafil 25mg on demand", 7/10⟩, ⟨"Vardenafil 10mg", 13/20⟩,
     ⟨"Behavioral therapy", 3/5⟩]

/-- The full Go `runSafetyEngine`, including the zero-findings override that
forces riskScore to 12 and riskLevel to LOW after the result is assembled. -/
def goRunSafetyEngine (d : PatientData) : DiagnosticResult :=
  let base : DiagnosticResult :=
    { riskScore := goScore d
      riskLevel := goRiskLevel d
      issues := issueStrings (goInteractions d) (goContraindications d) (goDosingConcerns d)
      interactions := goInteractions d
      contraindications := goContraindications d
      dosingConcerns := goDosingConcerns d
      plan :=
        { medication := goMedication d, dosage := goDosage d, duration := goDuration d
          rationale := goRationale d }
      alternatives := goAlternatives d
      confidenceScore := goConfidence d
      recommendationConfidence := { plan := goPlanConfidence d }
      source := "rules" }
  if goFindingsCount d = 0 then { base with riskScore := 12, riskLevel := "LOW" } else base

/-! ### JavaScript client fallback engine (`runSafetyEngine` in the frontend source) -/

def jsMeds (d : PatientData) : List String := normalizeList d.medications

def jsAllergies (d : PatientData) : List String := normalizeList d.allergies

/-- JS: `(data.conditions || []).map(c => c.toLowerCase())` — no trimming. -/
def jsConditions (d : PatientData) : List String :=
  d.conditions.map toLowerStr

def jsHasPDE5i (d : PatientData) : Bool := hasClassToken (jsMeds d) pde5iClass

def jsHasNitrates (d : PatientData) : Bool := hasClassToken (jsMeds d) nitrateClass

def jsHasAlphaBlocker (d : PatientData) : Bool :=
  hasClassToken (jsMeds d) alphaBlockerClass

def jsHasCyp3a4 (d : PatientData) : Bool := hasClassToken (jsMeds d) cyp3a4Class

def jsPregnant (d : PatientData) : Bool := containsString (jsConditions d) "pregnant"

def jsKidneyDisease (d : PatientData) : Bool :=
  containsString (jsConditions d) "kidney disease"

def jsLiverDisease (d : PatientData) : Bool :=
  containsString (jsConditions d) "liver disease"

def jsHeartDisease (d : PatientData) : Bool :=
  containsString (jsConditions d) "heart disease"

def jsHypertension (d : PatientData) : Bool :=
  containsString (jsConditions d) "hypertension"

def jsAllergyToPde5i (d : PatientData) : Bool :=
  hasClassToken (jsAllergies d) pde5iClass

def jsAllergyToNitrates (d : PatientData) : Bool :=
  hasClassToken (jsAllergies d) nitrateClass

def jsInteractions (d : PatientData) : List Interaction :=
  adhocInteractions (jsHasPDE5i d) (jsHasNitrates d) (jsHasAlphaBlocker d) (jsHasCyp3a4 d) ++
  ruleInteractions (jsMeds d)

def jsContraindications (d : PatientData) : List Contraindication :=
  ruleContraindications (jsMeds d) (jsConditions d) ++
  adhocContraindications d (jsHasNitrates d) (jsAllergyToPde5i d) (jsAllergyToNitrates d)
    (jsPregnant d) (jsHeartDisease d) (jsHypertension d)

/-- JS lowercases the lifestyle strings but does not trim them.  The senior-age
test is `age && age >= 65` with `age = Number(data.age) || null`, which agrees
with `d.age ≥ 65` on integer inputs (`0 ≥ 65` and `null ≥ 65` are both false). -/
def jsDosingConcerns (d : PatientData) : List DosingConcern :=
  ruleDosing (jsConditions d) ++
  adhocDosing d.bmi (decide (d.age ≥ 65)) (jsKidneyDisease d) (jsLiverDisease d)
    (toLowerStr d.smoking) (toLowerStr d.alcohol) (toLowerStr d.exercise)

def jsFindingsCount (d : PatientData) : Nat :=
  (jsInteractions d).length + (jsContraindications d).length + (jsDosingConcerns d).length

/-- JS `riskBumps`: lifestyle/vital additions accumulated alongside the finding
pushes (severe BP +10, elevated BP +5, BMI ≥35 +5, BMI ≥30 +2, current
smoking +2, heavy alcohol +3). -/
def jsRiskBumps (d : PatientData) : Int :=
  (if d.bpSystolic ≥ 170 ∨ d.bpDiastolic ≥ 110 then 10
   else if d.bpSystolic ≥ 150 ∨ d.bpDiastolic ≥ 95 then 5
   else 0) +
  (if d.bmi ≥ 35 then 5 else if d.bmi ≥ 30 then 2 else 0) +
  (if toLowerStr d.smoking = "current" then 2 else 0) +
  (if toLowerStr d.alcohol = "heavy" then 3 else 0)

/-- JS `maxSeverity` checks all three lists uniformly, dosing concerns included. -/
def jsMaxSeverity (d : PatientData) : String :=
  if (jsInteractions d).any (fun i => i.severity = "HIGH") ||
     (jsContraindications d).any (fun c => c.severity = "HIGH") ||
     (jsDosingConcerns d).any (fun x => x.severity = "HIGH") then "HIGH"
  else if (jsInteractions d).any (fun i => i.severity = "MEDIUM") ||
     (jsContraindications d).any (fun c => c.severity = "MEDIUM") ||
     (jsDosingConcerns d).any (fun x => x.severity = "MEDIUM") then "MEDIUM"
  else "LOW"

/-- JS score: reduce over all findings seeded with `5 + riskBumps`, then
`Math.min(100, ·)`. -/
def jsScoreRaw (d : PatientData) : Int :=
  ((jsDosingConcerns d).foldl (fun acc x => acc + severityWeight x.severity)
    (((jsContraindications d).foldl (fun acc c => acc + severityWeight c.severity)
      (((jsInteractions d).foldl (fun acc i => acc + severityWeight i.severity)
        (5 + jsRiskBumps d))))))

def jsScore (d : PatientData) : Int :=
  min 100 (jsScoreRaw d)

/-- JS risk level: HIGH on max severity HIGH or score ≥ 60, then the score
thresholds alone (a MEDIUM max severity with score < 30 yields LOW here). -/
def jsRiskLevel (d : PatientData) : String :=
  if jsMaxSeverity d = "HIGH" then "HIGH"
  else if jsScore d ≥ 60 then "HIGH"
  else if jsScore d ≥ 30 then "MEDIUM"
  else "LOW"

def jsHighBlocker (d : PatientData) : Bool :=
  (jsInteractions d).any (fun i => i.severity = "HIGH") ||
  (jsContraindications d).any (fun c => c.severity = "HIGH")

def jsConservative (d : PatientData) : Bool :=
  decide (d.age ≥ 65) || jsKidneyDisease d || jsLiverDisease d || jsHasAlphaBlocker d ||
  jsHasCyp3a4 d || jsHypertension d || jsHeartDisease d

def jsMedication (d : PatientData) : String :=
  if jsHighBlocker d then "None" else "Tadalafil"

def jsDosage (d : PatientData) : String :=
  if jsHighBlocker d then "N/A"
  else if jsConservative d then "2.5mg Daily" else "5mg Daily"

def jsDuration (d : PatientData) : String :=
  if jsHighBlocker d then "N/A"
  else if jsConservative d then "30 Days" else "90 Days"

def jsRationale (d : PatientData) : String :=
  let r := String.intercalate "; "
    ((if jsMedication d = "None" then
        ["Safety blockers present; pharmacotherapy deferred."]
      else
        ["PDE5 inhibitor indicated; starting with conservative dosing due to risk factors."]) ++
     rationaleTail d (jsKidneyDisease d) (jsLiverDisease d) (jsHasAlphaBlocker d)
       (jsHasCyp3a4 d) (jsHeartDisease d) (jsPregnant d))
  if r = "" then "Standard protocol." else r

/-- JS `confidenceScore = Math.max(0.6, 1 - score/120)`; here the score is the
returned risk score (the JS engine has no zero-findings override). -/
def jsConfidence (d : PatientData) : ℚ :=
  max (3/5) (1 - (jsScore d : ℚ) / 120)

/-- JS `planConfidence = highBlocker ? 0.4 : confidenceScore`. -/
def jsPlanConfidence (d : PatientData) : ℚ :=
  if jsHighBlocker d then 2/5 else jsConfidence d

def jsAlternatives (d : PatientData) : List Alternative :=
  if jsMedication d = "None" then
    [⟨"Vacuum erection device", 13/20⟩, ⟨"Specialist referral", 7/10⟩]
  else
    [⟨"Sildenafil 25mg on demand", 7/10⟩, ⟨"Vardenafil 10mg", 13/20⟩,
     ⟨"Behavioral therapy", 3/5⟩]

/-- The full JS `runSafetyEngine`.  There is no post-assembly override: the
returned risk score is the computed score even when no findings exist. -/
def jsRunSafetyEngine (d : PatientData) : DiagnosticResult :=
  { riskScore := jsScore d
    riskLevel := jsRiskLevel d
    issues := issueStrings (jsInteractions d) (jsContraindications d) (jsDosingConcerns d)
    interactions := jsInteractions d
    contraindications := jsContraindications d
    dosingConcerns := jsDosingConcerns d
    plan :=
      { medication := jsMedication d, dosage := jsDosage d, duration := jsDuration d
        rationale := jsRationale d }
    alternatives := jsAlternatives d
    confidenceScore := jsConfidence d
    recommendationConfidence := { plan := jsPlanConfidence d }
    source := "rules" }

/-! ### Cross-source reconciler (`mergeWithRules`, `higherRiskLevel`) -/

/-- The untrusted second result, per the source an untyped object of unknown
shape; modelled as explicit optional fields (a missing field is `none`). -/
structure ModelResult where
  riskScore : Option Int := none
  riskLevel : Option String := none
  issues : Option (List String) := none
  plan : Option Plan := none
  alternatives : Option (List Alternative) := none
  confidenceScore : Option ℚ := none
  source : Option String := none
deriving Repr, DecidableEq

/-- The merged object: `merged.riskLevel` can carry the model's arbitrary or
missing level verbatim, so it is an `Option String` here. -/
structure MergedResult where
  riskScore : Int
  riskLevel : Option String
  issues : List String
  interactions : List Interaction
  contraindications : List Contraindication
  dosingConcerns : List DosingConcern
  plan : Plan
  alternatives : List Alternative
  confidenceScore : ℚ
  source : String
deriving Repr, DecidableEq

/-- JS rank table `{LOW: 0, MEDIUM: 1, HIGH: 2}` with `rank[x] || 0`: both a
missing level and an unrecognised level rank as 0, the same as LOW. -/
def rlRank : Option String → Nat
  | some s => if s = "HIGH" then 2 else if s = "MEDIUM" then 1 else 0
  | none => 0

/-- Function `higherRiskLevel(a, b)`: returns `a` itself whenever its rank is ≥ `b`'s
(ties and unrecognised values included), else `b`. -/
def higherRiskLevel (a b : Option String) : Option String :=
  if rlRank b ≤ rlRank a then a else b

/-- First-occurrence-order deduplication (`Array.from(new Set([...a, ...b]))`). -/
def dedupFirstAux (seen : List String) : List String → List String
  | [] => []
  | x :: t =>
    if containsString seen x then dedupFirstAux seen t
    else x :: dedupFirstAux (x :: seen) t

def dedupFirst (l : List String) : List String :=
  dedupFirstAux [] l

/-- Function `mergeWithRules(modelResult, patientData)`: runs the JS engine on the
patient data and merges.  The finding lists always come from the rules result;
`riskScore` uses `|| 0` coercion on the model's value; `plan`, `alternatives`
and `confidenceScore` prefer the model's value when present; an empty-string
model source is falsy and falls back to `"rules+model"`. -/
def mergeWithRules (model : ModelResult) (d : PatientData) : MergedResult :=
  let rules := jsRunSafetyEngine d
  { riskScore := max (model.riskScore.getD 0) rules.riskScore
    riskLevel := higherRiskLevel model.riskLevel (some rules.riskLevel)
    issues := dedupFirst (model.issues.getD [] ++ rules.issues)
    interactions := rules.interactions
    contraindications := rules.contraindications
    dosingConcerns := rules.dosingConcerns
    plan := model.plan.getD rules.plan
    alternatives := model.alternatives.getD rules.alternatives
    confidenceScore := model.confidenceScore.getD rules.confidenceScore
    source :=
      match model.source with
      | some s => if s = "" then "rules+model" else s ++ "+rules"
      | none => "rules+model" }

/-! ### Interaction-list merge (`mergeInteractionLists`) -/

/-- An entry of an interaction list as handled by `mergeInteractionLists`;
`source` is `""` when absent (the JS code tests it with `||`, so an empty
string behaves exactly like a missing field). -/
structure MergeItem where
  pair : String
  severity : String
  note : String
  source : String := ""
deriving Repr, DecidableEq

/-- Table `sevRank` of ranks HIGH 2, MEDIUM 1, LOW 0 with `|| 0` for unknown values. -/
def sevRank (s : String) : Nat :=
  if s = "HIGH" then 2 else if s = "MEDIUM" then 1 else 0

/-- The dedup key: lowercased pair, `|`, lowercased note. -/
def mergeKey (i : MergeItem) : String :=
  toLowerStr i.pair ++ "|" ++ toLowerStr i.note

/-- Spread update: item with source replaced by `item.source || sourceLabel`. -/
def withSource (i : MergeItem) (label : String) : MergeItem :=
  { i with source := if i.source = "" then label else i.source }

/-- Insertion-ordered association list standing for the JS `Map`. -/
abbrev MergeMap := List (String × MergeItem)

def lookupKey (k : String) : MergeMap → Option MergeItem
  | [] => none
  | (k', v) :: t => if k' = k then some v else lookupKey k t

/-- Operation `Map.set`: replace in place when the key exists, else append at the end. -/
def setEntry (k : String) (v : MergeItem) : MergeMap → MergeMap
  | [] => [(k, v)]
  | (k', v') :: t => if k' = k then (k', v) :: t else (k', v') :: setEntry k v t

/-- One step of `pushAll`: skip entries with a falsy pair; insert new keys;
replace an existing entry only when the incoming severity ranks strictly
higher. -/
def insertItem (label : String) (m : MergeMap) (i : MergeItem) : MergeMap :=
  if i.pair = "" then m
  else
    match lookupKey (mergeKey i) m with
    | none => setEntry (mergeKey i) (withSource i label) m
    | some existing =>
      if sevRank existing.severity < sevRank i.severity then
        setEntry (mergeKey i) (withSource i label) m
      else m

def pushAll (label : String) (m : MergeMap) (l : List MergeItem) : MergeMap :=
  l.foldl (insertItem label) m

/-- The map state after `pushAll(base, 'rules'); pushAll(incoming, 'rxnav')`. -/
def mergeMap (base incoming : List MergeItem) : MergeMap :=
  pushAll "rxnav" (pushAll "rules" [] base) incoming

/-- Function `mergeInteractionLists`: the map's values in insertion order. -/
def mergeInteractionLists (base incoming : List MergeItem) : List MergeItem :=
  (mergeMap base incoming).map Prod.snd

/-! ### Helper lemmas -/

lemma mem_ite_nil {α : Type} {c : Prop} [Decidable c] {a x : α}
    (h : x ∈ (if c then [a] else [])) : x = a ∧ c := by
  by_cases hc : c
  · rw [if_pos hc] at h; exact ⟨List.mem_singleton.mp h, hc⟩
  · rw [if_neg hc] at h; exact absurd h (List.not_mem_nil x)

lemma mem_ite_ite_nil {α : Type} {c₁ c₂ : Prop} [Decidable c₁] [Decidable c₂] {a b x : α}
    (h : x ∈ (if c₁ then [a] else if c₂ then [b] else [])) : x = a ∨ x = b := by
  by_cases h₁ : c₁
  · rw [if_pos h₁] at h; exact Or.inl (List.mem_singleton.mp h)
  · rw [if_neg h₁] at h
    by_cases h₂ : c₂
    · rw [if_pos h₂] at h; exact Or.inr (List.mem_singleton.mp h)
    · rw [if_neg h₂] at h; exact absurd h (List.not_mem_nil x)

lemma ite_nil_eq_nil {α : Type} {c : Prop} [Decidable c] {a : α}
    (h : (if c then [a] else []) = []) : ¬c := by
  intro hc; rw [if_pos hc] at h; exact List.cons_ne_nil a [] h

lemma ite_ite_nil_eq_nil {α : Type} {c₁ c₂ : Prop} [Decidable c₁] [Decidable c₂] {a b : α}
    (h : (if c₁ then [a] else if c₂ then [b] else []) = []) : ¬c₁ ∧ ¬c₂ := by
  by_cases h₁ : c₁
  · rw [if_pos h₁] at h; exact absurd h (List.cons_ne_nil a [])
  · rw [if_neg h₁] at h
    by_cases h₂ : c₂
    · rw [if_pos h₂] at h; exact absurd h (List.cons_ne_nil b [])
    · exact ⟨h₁, h₂⟩

/-! ### Result projection lemmas -/

lemma goResult_interactions (d : PatientData) :
    (goRunSafetyEngine d).interactions = goInteractions d := by
  by_cases h : goFindingsCount d = 0 <;> simp [goRunSafetyEngine, h]

lemma goResult_contraindications (d : PatientData) :
    (goRunSafetyEngine d).contraindications = goContraindications d := by
  by_cases h : goFindingsCount d = 0 <;> simp [goRunSafetyEngine, h]

lemma goResult_dosingConcerns (d : PatientData) :
    (goRunSafetyEngine d).dosingConcerns = goDosingConcerns d := by
  by_cases h : goFindingsCount d = 0 <;> simp [goRunSafetyEngine, h]

lemma goResult_plan (d : PatientData) :
    (goRunSafetyEngine d).plan =
      { medication := goMedication d, dosage := goDosage d, duration := goDuration d
        rationale := goRationale d } := by
  by_cases h : goFindingsCount d = 0 <;> simp [goRunSafetyEngine, h]

lemma goResult_confidence (d : PatientData) :
    (goRunSafetyEngine d).confidenceScore = goConfidence d := by
  by_cases h : goFindingsCount d = 0 <;> simp [goRunSafetyEngine, h]

lemma goResult_planConfidence (d : PatientData) :
    (goRunSafetyEngine d).recommendationConfidence.plan = goPlanConfidence d := by
  by_cases h : goFindingsCount d = 0 <;> simp [goRunSafetyEngine, h]

lemma goResult_riskScore (d : PatientData) :
    (goRunSafetyEngine d).riskScore = if goFindingsCount d = 0 then 12 else goScore d := by
  by_cases h : goFindingsCount d = 0 <;> simp [goRunSafetyEngine, h]

lemma goResult_riskLevel (d : PatientData) :
    (goRunSafetyEngine d).riskLevel =
      if goFindingsCount d = 0 then "LOW" else goRiskLevel d := by
  by_cases h : goFindingsCount d = 0 <;> simp [goRunSafetyEngine, h]

/-! ### Severity of dosing concerns -/

lemma ruleDosing_severity {conds : List String} {f : DosingConcern}
    (hf : f ∈ ruleDosing conds) : f.severity = "MEDIUM" := by
  unfold ruleDosing at hf
  obtain ⟨r, hr, rfl⟩ := List.mem_map.mp hf
  obtain ⟨hmem, hq⟩ := List.mem_filter.mp hr
  have ht : r.type = "dosing" := by
    simp only [Bool.and_eq_true, decide_eq_true_eq] at hq
    exact hq.1
  have hall : ∀ r₀ ∈ ruleDB, r₀.type = "dosing" → r₀.severity = "MEDIUM" := by decide
  exact hall r hmem ht

lemma adhocDosing_severity {bmi : ℚ} {sa k l : Bool} {sm al ex : String} {f : DosingConcern}
    (hf : f ∈ adhocDosing bmi sa k l sm al ex) :
    f.severity = "MEDIUM" ∨ f.severity = "LOW" := by
  unfold adhocDosing at hf
  simp only [List.mem_append] at hf
  rcases hf with ((((((h | h) | h) | h) | h) | h) | h)
  · exact Or.inl (by rw [(mem_ite_nil h).1])
  · exact Or.inl (by rw [(mem_ite_nil h).1])
  · exact Or.inl (by rw [(mem_ite_nil h).1])
  · rcases mem_ite_ite_nil h with rfl | rfl
    · exact Or.inl rfl
    · exact Or.inr rfl
  · exact Or.inr (by rw [(mem_ite_nil h).1])
  · exact Or.inl (by rw [(mem_ite_nil h).1])
  · exact Or.inr (by rw [(mem_ite_nil h).1])

lemma goDosing_severity {d : PatientData} {f : DosingConcern}
    (hf : f ∈ goDosingConcerns d) : f.severity = "MEDIUM" ∨ f.severity = "LOW" := by
  unfold goDosingConcerns at hf
  rcases List.mem_append.mp hf with h | h
  · exact Or.inl (ruleDosing_severity h)
  · exact adhocDosing_severity h

lemma jsDosing_severity {d : PatientData} {f : DosingConcern}
    (hf : f ∈ jsDosingConcerns d) : f.severity = "MEDIUM" ∨ f.severity = "LOW" := by
  unfold jsDosingConcerns at hf
  rcases List.mem_append.mp hf with h | h
  · exact Or.inl (ruleDosing_severity h)
  · exact adhocDosing_severity h

/-- C10: every dosing concern produced by either engine has severity MEDIUM or
LOW; no code path ever creates a HIGH-severity dosing concern.  (This is what
lets the Go max-severity loops skip the HIGH check on the dosing list.) -/
theorem c10_dosing_never_high (d : PatientData) (f : DosingConcern)
    (hgo : f ∈ (goRunSafetyEngine d).dosingConcerns ∨
           f ∈ (jsRunSafetyEngine d).dosingConcerns) :
    f.severity = "MEDIUM" ∨ f.severity = "LOW" := by
  rcases hgo with h | h
  · rw [goResult_dosingConcerns] at h
    exact goDosing_severity h
  · exact jsDosing_severity h

/-- Witness for C10 at a concrete input: the renal-impairment concern is in the
result and its severity is MEDIUM or LOW. -/
theorem c10_dosing_never_high_witness :
    (⟨"Renal impairment", "MEDIUM", "Max 2.5mg-5mg daily; monitor for hypotension."⟩ :
        DosingConcern) ∈
      (goRunSafetyEngine { conditions := ["kidney disease"] }).dosingConcerns ∧
    ((⟨"Renal impairment", "MEDIUM", "Max 2.5mg-5mg daily; monitor for hypotension."⟩ :
        DosingConcern).severity = "MEDIUM" ∨
     (⟨"Renal impairment", "MEDIUM", "Max 2.5mg-5mg daily; monitor for hypotension."⟩ :
        DosingConcern).severity = "LOW") := by
  refine ⟨by decide, ?_⟩
  exact c10_dosing_never_high { conditions := ["kidney disease"] }
    ⟨"Renal impairment", "MEDIUM", "Max 2.5mg-5mg daily; monitor for hypotension."⟩
    (Or.inl (by decide))

/-! ### C1: nitrate + PDE5i forces a HIGH interaction and no medication -/

lemma goNitratePde5i_mem {d : PatientData} (hp : goHasPDE5i d = true)
    (hn : goHasNitrates d = true) :
    (⟨"Nitrates + PDE5i", "HIGH",
      "Risk of profound hypotension; avoid co-administration."⟩ : Interaction) ∈
      goInteractions d := by
  unfold goInteractions adhocInteractions
  rw [hp, hn]
  simp

lemma goInteractions_any_high {d : PatientData} (hp : goHasPDE5i d = true)
    (hn : goHasNitrates d = true) :
    (goInteractions d).any (fun i => i.severity = "HIGH") = true := by
  rw [List.any_eq_true]
  exact ⟨_, goNitratePde5i_mem hp hn, by decide⟩

/-- C1: whenever the medications text contains both a nitrate-class token and a
PDE5-inhibitor-class token, the engine result contains a HIGH-severity
interaction and the plan is medication "None", dosage "N/A", duration "N/A". -/
theorem c1_nitrate_pde5i_blocks (d : PatientData)
    (hn : hasClassToken (normalizeList d.medications) nitrateClass = true)
    (hp : hasClassToken (normalizeList d.medications) pde5iClass = true) :
    (goRunSafetyEngine d).interactions.any (fun i => i.severity = "HIGH") = true ∧
    (goRunSafetyEngine d).plan.medication = "None" ∧
    (goRunSafetyEngine d).plan.dosage = "N/A" ∧
    (goRunSafetyEngine d).plan.duration = "N/A" := by
  have hany := @goInteractions_any_high d hp hn
  have hb : goHighBlocker d = true := by
    unfold goHighBlocker
    rw [hany, Bool.true_or]
  refine ⟨by rw [goResult_interactions]; exact hany, ?_, ?_, ?_⟩ <;>
    rw [goResult_plan] <;>
    simp [goMedication, goDosage, goDuration, hb]

/-- Witness for C1 at medications "sildenafil, nitroglycerin". -/
theorem c1_nitrate_pde5i_blocks_witness :
    (hasClassToken (normalizeList "sildenafil, nitroglycerin") nitrateClass = true ∧
     hasClassToken (normalizeList "sildenafil, nitroglycerin") pde5iClass = true) ∧
    ((goRunSafetyEngine { medications := "sildenafil, nitroglycerin" }).interactions.any
        (fun i => i.severity = "HIGH") = true ∧
     (goRunSafetyEngine { medications := "sildenafil, nitroglycerin" }).plan.medication =
        "None" ∧
     (goRunSafetyEngine { medications := "sildenafil, nitroglycerin" }).plan.dosage = "N/A" ∧
     (goRunSafetyEngine { medications := "sildenafil, nitroglycerin" }).plan.duration =
        "N/A") :=
  ⟨⟨by decide, by decide⟩,
   c1_nitrate_pde5i_blocks { medications := "sildenafil, nitroglycerin" }
     (by decide) (by decide)⟩

/-! ### C2: medication "None" iff a HIGH interaction or contraindication -/

/-- C2: in both engines the plan medication is exactly "None" iff some
interaction or some contraindication in the same result has severity HIGH;
dosing concerns (of any severity) and lower-severity findings never force it. -/
theorem c2_none_iff_high_blocker (d : PatientData) :
    ((goRunSafetyEngine d).plan.medication = "None" ↔
      ((goRunSafetyEngine d).interactions.any (fun i => i.severity = "HIGH") = true ∨
       (goRunSafetyEngine d).contraindications.any (fun c => c.severity = "HIGH") = true)) ∧
    ((jsRunSafetyEngine d).plan.medication = "None" ↔
      ((jsRunSafetyEngine d).interactions.any (fun i => i.severity = "HIGH") = true ∨
       (jsRunSafetyEngine d).contraindications.any (fun c => c.severity = "HIGH") = true)) := by
  constructor
  · rw [goResult_plan, goResult_interactions, goResult_contraindications]
    show goMedication d = "None" ↔ _
    unfold goMedication goHighBlocker
    by_cases h1 : (goInteractions d).any (fun i => i.severity = "HIGH") = true <;>
      by_cases h2 : (goContraindications d).any (fun c => c.severity = "HIGH") = true <;>
      simp [h1, h2]
  · rw [show (jsRunSafetyEngine d).interactions = jsInteractions d from rfl,
      show (jsRunSafetyEngine d).contraindications = jsContraindications d from rfl]
    show jsMedication d = "None" ↔ _
    unfold jsMedication jsHighBlocker
    by_cases h1 : (jsInteractions d).any (fun i => i.severity = "HIGH") = true <;>
      by_cases h2 : (jsContraindications d).any (fun c => c.severity = "HIGH") = true <;>
      simp [h1, h2]

/-! ### C5: a HIGH finding anywhere forces riskLevel HIGH -/

lemma goMaxSeverity_high {d : PatientData}
    (h : (goInteractions d).any (fun i => i.severity = "HIGH") = true ∨
         (goContraindications d).any (fun c => c.severity = "HIGH") = true) :
    goMaxSeverity d = "HIGH" := by
  unfold goMaxSeverity
  rcases h with h | h
  · simp [h]
  · by_cases h1 : (goInteractions d).any (fun i => i.severity = "HIGH") = true
    · simp [h1]
    · by_cases h1m : (goInteractions d).any (fun i => i.severity = "MEDIUM") = true <;>
        simp [h1, h1m, h]

lemma goRiskLevel_high_of_max {d : PatientData} (h : goMaxSeverity d = "HIGH") :
    goRiskLevel d = "HIGH" := by
  unfold goRiskLevel
  simp [h]

lemma count_ne_zero_of_any {α : Type} {l : List α} {p : α → Bool} {n : Nat}
    (h : l.any p = true) : l.length + n ≠ 0 := by
  obtain ⟨x, hx, -⟩ := List.any_eq_true.mp h
  have := List.length_pos.mpr (List.ne_nil_of_mem hx)
  omega

/-- C5: whenever any finding in the result carries severity HIGH — in the
interactions, contraindications or dosing list — the reported risk level is
HIGH.  (For the Go engine the dosing list is never inspected for HIGH, but by
C10 it can never contain one.) -/
theorem c5_high_finding_forces_high_level (d : PatientData) :
    (((goRunSafetyEngine d).interactions.any (fun i => i.severity = "HIGH") ||
      (goRunSafetyEngine d).contraindications.any (fun c => c.severity = "HIGH") ||
      (goRunSafetyEngine d).dosingConcerns.any (fun f => f.severity = "HIGH")) = true →
      (goRunSafetyEngine d).riskLevel = "HIGH") ∧
    (((jsRunSafetyEngine d).interactions.any (fun i => i.severity = "HIGH") ||
      (jsRunSafetyEngine d).contraindications.any (fun c => c.severity = "HIGH") ||
      (jsRunSafetyEngine d).dosingConcerns.any (fun f => f.severity = "HIGH")) = true →
      (jsRunSafetyEngine d).riskLevel = "HIGH") := by
  constructor
  · intro h
    rw [goResult_interactions, goResult_contraindications, goResult_dosingConcerns] at h
    have h' : (goInteractions d).any (fun i => i.severity = "HIGH") = true ∨
        (goContraindications d).any (fun c => c.severity = "HIGH") = true := by
      rcases (Bool.or_eq_true _ _).mp h with h | hd
      · rcases (Bool.or_eq_true _ _).mp h with h | h
        · exact Or.inl h
        · exact Or.inr h
      · obtain ⟨f, hf, hsev⟩ := List.any_eq_true.mp hd
        have := goDosing_severity hf
        rcases this with hm | hm <;> simp [hm] at hsev
    have hcount : goFindingsCount d ≠ 0 := by
      unfold goFindingsCount
      rcases h' with h' | h'
      · obtain ⟨x, hx, -⟩ := List.any_eq_true.mp h'
        have := List.length_pos.mpr (List.ne_nil_of_mem hx)
        omega
      · obtain ⟨x, hx, -⟩ := List.any_eq_true.mp h'
        have := List.length_pos.mpr (List.ne_nil_of_mem hx)
        omega
    rw [goResult_riskLevel, if_neg hcount]
    exact goRiskLevel_high_of_max (goMaxSeverity_high h')
  · intro h
    have hmax : jsMaxSeverity d = "HIGH" := by
      unfold jsMaxSeverity
      rw [show (jsRunSafetyEngine d).interactions = jsInteractions d from rfl,
        show (jsRunSafetyEngine d).contraindications = jsContraindications d from rfl,
        show (jsRunSafetyEngine d).dosingConcerns = jsDosingConcerns d from rfl] at h
      simp [h]
    show jsRiskLevel d = "HIGH"
    unfold jsRiskLevel
    simp [hmax]

/-- Witness for C5 at medications "nitroglycerin" (HIGH nitrate-therapy
contraindication in both engines). -/
theorem c5_high_finding_forces_high_level_witness :
    (((goRunSafetyEngine { medications := "nitroglycerin" }).interactions.any
        (fun i => i.severity = "HIGH") ||
      (goRunSafetyEngine { medications := "nitroglycerin" }).contraindications.any
        (fun c => c.severity = "HIGH") ||
      (goRunSafetyEngine { medications := "nitroglycerin" }).dosingConcerns.any
        (fun f => f.severity = "HIGH")) = true) ∧
    (goRunSafetyEngine { medications := "nitroglycerin" }).riskLevel = "HIGH" ∧
    (jsRunSafetyEngine { medications := "nitroglycerin" }).riskLevel = "HIGH" :=
  ⟨by decide,
   (c5_high_finding_forces_high_level { medications := "nitroglycerin" }).1 (by decide),
   (c5_high_finding_forces_high_level { medications := "nitroglycerin" }).2 (by decide)⟩

/-! ### C3: behaviour on zero findings -/

lemma jsRiskBumps_zero {d : PatientData} (hc : jsContraindications d = [])
    (hd : jsDosingConcerns d = []) : jsRiskBumps d = 0 := by
  unfold jsContraindications at hc
  unfold jsDosingConcerns at hd
  rw [List.append_eq_nil] at hc hd
  unfold adhocContraindications at hc
  unfold adhocDosing at hd
  simp only [List.append_eq_nil, and_assoc] at hc hd
  obtain ⟨-, -, hbp, -, -, -, -, -⟩ := hc
  obtain ⟨-, -, -, -, hbmi, hsm, hal, -⟩ := hd
  obtain ⟨hbp1, hbp2⟩ := ite_ite_nil_eq_nil hbp
  obtain ⟨hbmi1, hbmi2⟩ := ite_ite_nil_eq_nil hbmi
  have hsm' := ite_nil_eq_nil hsm
  have hal' := ite_nil_eq_nil hal
  unfold jsRiskBumps
  rw [if_neg hbp1, if_neg hbp2, if_neg hbmi1, if_neg hbmi2, if_neg hsm', if_neg hal']
  decide

lemma length_sum_zero {a b c : Nat} (h : a + b + c = 0) : a = 0 ∧ b = 0 ∧ c = 0 := by
  omega

/-- C3 (amended): on zero findings the Go engine overrides the risk score to 12
and the level to LOW, while the JS client fallback has no override and returns
the raw base score 5 (also with level LOW). -/
theorem c3_zero_findings (d : PatientData) :
    (goFindingsCount d = 0 →
      (goRunSafetyEngine d).riskScore = 12 ∧ (goRunSafetyEngine d).riskLevel = "LOW") ∧
    (jsFindingsCount d = 0 →
      (jsRunSafetyEngine d).riskScore = 5 ∧ (jsRunSafetyEngine d).riskLevel = "LOW") := by
  constructor
  · intro h
    rw [goResult_riskScore, goResult_riskLevel, if_pos h, if_pos h]
    exact ⟨rfl, rfl⟩
  · intro h
    unfold jsFindingsCount at h
    obtain ⟨h1, h2, h3⟩ := length_sum_zero h
    rw [List.length_eq_zero] at h1 h2 h3
    have hbumps := jsRiskBumps_zero h2 h3
    have hraw : jsScoreRaw d = 5 := by
      unfold jsScoreRaw
      rw [h1, h2, h3]
      simp [hbumps]
    have hscore : jsScore d = 5 := by
      unfold jsScore
      rw [hraw]
      decide
    constructor
    · exact hscore
    · show jsRiskLevel d = "LOW"
      have hmax : jsMaxSeverity d = "LOW" := by
        unfold jsMaxSeverity
        rw [h1, h2, h3]
        simp
      unfold jsRiskLevel
      rw [hmax, hscore]
      simp

/-- Witness for C3 at the empty patient record for both engines. -/
theorem c3_zero_findings_witness :
    (goFindingsCount {} = 0 ∧
      (goRunSafetyEngine {}).riskScore = 12 ∧ (goRunSafetyEngine {}).riskLevel = "LOW") ∧
    (jsFindingsCount {} = 0 ∧
      (jsRunSafetyEngine {}).riskScore = 5 ∧ (jsRunSafetyEngine {}).riskLevel = "LOW") :=
  ⟨⟨by decide, (c3_zero_findings {}).1 (by decide)⟩,
   ⟨by decide, (c3_zero_findings {}).2 (by decide)⟩⟩

/-- Counterexample to C3 as stated: the JS client engine, on the empty intake,
produces zero findings yet returns riskScore 5 — the raw base score, not the
claimed override value 12. -/
theorem c3_counterexample :
    (jsRunSafetyEngine {}).interactions = [] ∧
    (jsRunSafetyEngine {}).contraindications = [] ∧
    (jsRunSafetyEngine {}).dosingConcerns = [] ∧
    (jsRunSafetyEngine {}).riskScore = 5 ∧
    (jsRunSafetyEngine {}).riskScore ≠ 12 := by
  refine ⟨by decide, by decide, by decide, by decide, by decide⟩

/-! ### C4: the score formula -/

/-- Clamp an integer into the interval from `lo` to `hi`. -/
def clamp (x lo hi : Int) : Int := max lo (min hi x)

/-- Sum of severity weights over all findings of a result. -/
def findingWeights (r : DiagnosticResult) : Int :=
  (r.interactions.map (fun i => severityWeight i.severity)).sum +
  (r.contraindications.map (fun c => severityWeight c.severity)).sum +
  (r.dosingConcerns.map (fun f => severityWeight f.severity)).sum

lemma foldl_add_map {α : Type} (w : α → Int) :
    ∀ (l : List α) (init : Int),
      l.foldl (fun acc x => acc + w x) init = init + (l.map w).sum := by
  intro l
  induction l with
  | nil => intro init; simp
  | cons x t ih =>
    intro init
    rw [List.foldl_cons, ih, List.map_cons, List.sum_cons]
    ring

lemma severityWeight_nonneg (s : String) : 0 ≤ severityWeight s := by
  unfold severityWeight
  split
  · norm_num
  · split
    · norm_num
    · split <;> norm_num

lemma mapped_weights_nonneg {α : Type} (l : List α) (w : α → String) :
    0 ≤ (l.map (fun x => severityWeight (w x))).sum := by
  apply List.sum_nonneg
  intro a ha
  obtain ⟨x, -, rfl⟩ := List.mem_map.mp ha
  exact severityWeight_nonneg (w x)

lemma goScoreRaw_eq (d : PatientData) :
    goScoreRaw d =
      5 + (((goInteractions d).map (fun i => severityWeight i.severity)).sum +
        ((goContraindications d).map (fun c => severityWeight c.severity)).sum +
        ((goDosingConcerns d).map (fun f => severityWeight f.severity)).sum) := by
  unfold goScoreRaw
  rw [foldl_add_map, foldl_add_map, foldl_add_map]
  ring

lemma jsScoreRaw_eq (d : PatientData) :
    jsScoreRaw d =
      5 + jsRiskBumps d + (((jsInteractions d).map (fun i => severityWeight i.severity)).sum +
        ((jsContraindications d).map (fun c => severityWeight c.severity)).sum +
        ((jsDosingConcerns d).map (fun f => severityWeight f.severity)).sum) := by
  unfold jsScoreRaw
  rw [foldl_add_map, foldl_add_map, foldl_add_map]
  ring

lemma jsRiskBumps_nonneg (d : PatientData) : 0 ≤ jsRiskBumps d := by
  unfold jsRiskBumps
  repeat' split
  all_goals norm_num

lemma goRiskScore_clamp {d : PatientData} (h : goFindingsCount d ≠ 0) :
    (goRunSafetyEngine d).riskScore =
      clamp (5 + findingWeights (goRunSafetyEngine d)) 0 100 := by
    rw [goResult_riskScore, if_neg h]
    have hfw : findingWeights (goRunSafetyEngine d) =
        ((goInteractions d).map (fun i => severityWeight i.severity)).sum +
        ((goContraindications d).map (fun c => severityWeight c.severity)).sum +
        ((goDosingConcerns d).map (fun f => severityWeight f.severity)).sum := by
      unfold findingWeights
      rw [goResult_interactions, goResult_contraindications, goResult_dosingConcerns]
    have h1 := mapped_weights_nonneg (goInteractions d) (fun i => i.severity)
    have h2 := mapped_weights_nonneg (goContraindications d) (fun c => c.severity)
    have h3 := mapped_weights_nonneg (goDosingConcerns d) (fun f => f.severity)
    unfold goScore
    rw [goScoreRaw_eq, hfw]
    unfold clamp
    omega

lemma jsRiskScore_clamp (d : PatientData) :
    (jsRunSafetyEngine d).riskScore =
      clamp (5 + jsRiskBumps d + findingWeights (jsRunSafetyEngine d)) 0 100 := by
    show jsScore d = _
    have hfw : findingWeights (jsRunSafetyEngine d) =
        ((jsInteractions d).map (fun i => severityWeight i.severity)).sum +
        ((jsContraindications d).map (fun c => severityWeight c.severity)).sum +
        ((jsDosingConcerns d).map (fun f => severityWeight f.severity)).sum := rfl
    have h1 := mapped_weights_nonneg (jsInteractions d) (fun i => i.severity)
    have h2 := mapped_weights_nonneg (jsContraindications d) (fun c => c.severity)
    have h3 := mapped_weights_nonneg (jsDosingConcerns d) (fun f => f.severity)
    have h4 := jsRiskBumps_nonneg d
    unfold jsScore
    rw [jsScoreRaw_eq, hfw]
    unfold clamp
    omega

/-- C4 (amended): the Go engine's returned risk score (for inputs with at
least one finding) is exactly clamp(5 + Σ weight(severity), 0, 100) with no
other term; the JS client engine additionally adds its `riskBumps` term
(blood-pressure, BMI, smoking and alcohol bumps) to the base before
clamping. -/
theorem c4_score_formula (d : PatientData) :
    (goFindingsCount d ≠ 0 →
      (goRunSafetyEngine d).riskScore =
        clamp (5 + findingWeights (goRunSafetyEngine d)) 0 100) ∧
    (jsRunSafetyEngine d).riskScore =
      clamp (5 + jsRiskBumps d + findingWeights (jsRunSafetyEngine d)) 0 100 :=
  ⟨fun h => goRiskScore_clamp h, jsRiskScore_clamp d⟩

/-- Witness for C4 at conditions ["hypertension"]: one MEDIUM finding, Go
score 25 = clamp(5 + 20, 0, 100). -/
theorem c4_score_formula_witness :
    (goFindingsCount { conditions := ["hypertension"] } ≠ 0 ∧
      (goRunSafetyEngine { conditions := ["hypertension"] }).riskScore =
        clamp (5 + findingWeights (goRunSafetyEngine { conditions := ["hypertension"] }))
          0 100) ∧
    (jsRunSafetyEngine { conditions := ["hypertension"] }).riskScore =
      clamp (5 + jsRiskBumps { conditions := ["hypertension"] } +
        findingWeights (jsRunSafetyEngine { conditions := ["hypertension"] })) 0 100 :=
  ⟨⟨by decide, (c4_score_formula { conditions := ["hypertension"] }).1 (by decide)⟩,
   (c4_score_formula { conditions := ["hypertension"] }).2⟩

/-- Counterexample to C4 as stated: for BMI 36 the JS client engine returns
riskScore 30, not clamp(5 + Σ weight, 0, 100) = 25 — the extra 5 is the BMI
risk bump, which does contribute to the score. -/
theorem c4_counterexample :
    (jsRunSafetyEngine { bmi := 36 }).riskScore = 30 ∧
    clamp (5 + findingWeights (jsRunSafetyEngine { bmi := 36 })) 0 100 = 25 ∧
    (30 : Int) ≠ 25 := by
  refine ⟨by decide, by decide, by decide⟩

/-! ### C6: confidence formulas -/

lemma floor_ite_eq_max (c : ℚ) : (if c < 3/5 then (3/5 : ℚ) else c) = max (3/5) c := by
  rcases lt_or_ge c (3/5) with h | h
  · rw [if_pos h, max_eq_left h.le]
  · rw [if_neg (not_lt.mpr h), max_eq_right h]

/-- C6 (amended): the Go engine computes confidenceScore from the pre-override
score, so the stated identity with the returned riskScore holds exactly on
inputs with at least one finding; the JS engine satisfies it unconditionally;
in both engines the plan confidence is the confidence score for an issued
medication and exactly 0.4 when the medication is "None". -/
theorem c6_confidence_formula (d : PatientData) :
    (goFindingsCount d ≠ 0 →
      (goRunSafetyEngine d).confidenceScore =
        max (3/5 : ℚ) (1 - ((goRunSafetyEngine d).riskScore : ℚ) / 120)) ∧
    ((goRunSafetyEngine d).recommendationConfidence.plan =
      if (goRunSafetyEngine d).plan.medication = "None" then (2/5 : ℚ)
      else (goRunSafetyEngine d).confidenceScore) ∧
    ((jsRunSafetyEngine d).confidenceScore =
      max (3/5 : ℚ) (1 - ((jsRunSafetyEngine d).riskScore : ℚ) / 120)) ∧
    ((jsRunSafetyEngine d).recommendationConfidence.plan =
      if (jsRunSafetyEngine d).plan.medication = "None" then (2/5 : ℚ)
      else (jsRunSafetyEngine d).confidenceScore) := by
  refine ⟨?_, ?_, ?_, ?_⟩
  · intro h
    rw [goResult_confidence, goResult_riskScore, if_neg h]
    show (if 1 - (goScore d : ℚ) / 120 < 3/5 then (3/5 : ℚ) else 1 - (goScore d : ℚ) / 120) = _
    exact floor_ite_eq_max _
  · rw [goResult_planConfidence, goResult_plan, goResult_confidence]
    rfl
  · rfl
  · show jsPlanConfidence d = if jsMedication d = "None" then (2/5 : ℚ) else jsConfidence d
    unfold jsPlanConfidence jsMedication
    by_cases hb : jsHighBlocker d = true <;> simp [hb]

/-- Witness for C6 at conditions ["hypertension"]: one MEDIUM finding, so the
identity with the returned risk score holds. -/
theorem c6_confidence_formula_witness :
    (goFindingsCount { conditions := ["hypertension"] } ≠ 0 ∧
      (goRunSafetyEngine { conditions := ["hypertension"] }).confidenceScore =
        max (3/5 : ℚ)
          (1 - ((goRunSafetyEngine { conditions := ["hypertension"] }).riskScore : ℚ) / 120)) ∧
    (jsRunSafetyEngine { conditions := ["hypertension"] }).confidenceScore =
      max (3/5 : ℚ)
        (1 - ((jsRunSafetyEngine { conditions := ["hypertension"] }).riskScore : ℚ) / 120) :=
  ⟨⟨by decide, (c6_confidence_formula { conditions := ["hypertension"] }).1 (by decide)⟩,
   (c6_confidence_formula { conditions := ["hypertension"] }).2.2.1⟩

/-- Counterexample to C6 as stated: on the empty intake the Go engine returns
riskScore 12 (the override) but confidenceScore 23/24 = max(0.6, 1 − 5/120),
computed from the pre-override score 5, not max(0.6, 1 − 12/120) = 9/10. -/
theorem c6_counterexample :
    (goRunSafetyEngine {}).confidenceScore = 23/24 ∧
    (goRunSafetyEngine {}).riskScore = 12 ∧
    max (3/5 : ℚ) (1 - ((goRunSafetyEngine {}).riskScore : ℚ) / 120) = 9/10 ∧
    (23/24 : ℚ) ≠ 9/10 := by
  have hs : goScore ({} : PatientData) = 5 := by decide
  have hrs : (goRunSafetyEngine {}).riskScore = 12 := by decide
  refine ⟨?_, hrs, ?_, by norm_num⟩
  · rw [goResult_confidence]
    show (if 1 - (goScore ({} : PatientData) : ℚ) / 120 < 3/5 then (3/5 : ℚ)
      else 1 - (goScore ({} : PatientData) : ℚ) / 120) = 23/24
    rw [hs]
    norm_num
  · rw [hrs]
    rw [show (((12 : Int) : ℚ)) = 12 from by norm_num]
    rw [show (1 : ℚ) - 12/120 = 9/10 from by norm_num]
    exact max_eq_right (by norm_num)

/-! ### C7: ad hoc checks and table rows both fire, with no deduplication -/

lemma mem_ruleInteractions {meds : List String} {r : Rule} (hr : r ∈ ruleDB)
    (ht : r.type = "interaction")
    (ha : hasClassTokenByName meds r.matchSpec.drugClassA = true)
    (hb : hasClassTokenByName meds r.matchSpec.drugClassB = true) :
    (⟨r.matchSpec.drugClassA ++ "+" ++ r.matchSpec.drugClassB, r.severity, r.note⟩ :
        Interaction) ∈ ruleInteractions meds := by
  unfold ruleInteractions
  exact List.mem_map.mpr ⟨r, List.mem_filter.mpr ⟨hr, by simp [ht, ha, hb]⟩, rfl⟩

lemma goAlphaPde5i_mem {d : PatientData} (hp : goHasPDE5i d = true)
    (ha : goHasAlphaBlocker d = true) :
    (⟨"Alpha-blocker + PDE5i", "MEDIUM",
      "Additive hypotension; separate dosing and start low."⟩ : Interaction) ∈
      goInteractions d := by
  unfold goInteractions adhocInteractions
  rw [hp, ha]
  simp

lemma goCypPde5i_mem {d : PatientData} (hp : goHasPDE5i d = true)
    (hc : goHasCyp3a4 d = true) :
    (⟨"Strong CYP3A4 inhibitor + PDE5i", "MEDIUM",
      "Higher PDE5i levels; use lowest dose and monitor."⟩ : Interaction) ∈
      goInteractions d := by
  unfold goInteractions adhocInteractions
  rw [hp, hc]
  simp

lemma mem_goInteractions_of_table {d : PatientData} {i : Interaction}
    (h : i ∈ ruleInteractions (goMeds d)) : i ∈ goInteractions d := by
  unfold goInteractions
  exact List.mem_append.mpr (Or.inr h)

lemma goCount_ne_zero_of_mem_interactions {d : PatientData} {i : Interaction}
    (h : i ∈ goInteractions d) : goFindingsCount d ≠ 0 := by
  unfold goFindingsCount
  have := List.length_pos.mpr (List.ne_nil_of_mem h)
  omega

/-- C7: for each drug-class pair covered both by a hard-coded check and by a
rule-table row (nitrates+PDE5i, alpha-blocker+PDE5i, CYP3A4+PDE5i), the engine
appends two distinct interaction findings — one per source, not deduplicated —
and the risk score sums the severity weights over the whole findings list, so
both entries contribute their weight.  The JS client engine builds the exact
same interactions list. -/
theorem c7_adhoc_and_table_both_fire (d : PatientData) :
    (goHasPDE5i d = true ∧ goHasNitrates d = true →
      (⟨"Nitrates + PDE5i", "HIGH",
        "Risk of profound hypotension; avoid co-administration."⟩ : Interaction) ∈
          (goRunSafetyEngine d).interactions ∧
      (⟨"nitrates+pde5i", "HIGH",
        "Risk of profound hypotension; avoid co-administration."⟩ : Interaction) ∈
          (goRunSafetyEngine d).interactions ∧
      (⟨"Nitrates + PDE5i", "HIGH",
        "Risk of profound hypotension; avoid co-administration."⟩ : Interaction) ≠
        ⟨"nitrates+pde5i", "HIGH",
          "Risk of profound hypotension; avoid co-administration."⟩ ∧
      (goRunSafetyEngine d).riskScore =
        clamp (5 + findingWeights (goRunSafetyEngine d)) 0 100) ∧
    (goHasPDE5i d = true ∧ goHasAlphaBlocker d = true →
      (⟨"Alpha-blocker + PDE5i", "MEDIUM",
        "Additive hypotension; separate dosing and start low."⟩ : Interaction) ∈
          (goRunSafetyEngine d).interactions ∧
      (⟨"alphaBlockers+pde5i", "MEDIUM",
        "Additive hypotension; separate dosing and start low."⟩ : Interaction) ∈
          (goRunSafetyEngine d).interactions ∧
      (⟨"Alpha-blocker + PDE5i", "MEDIUM",
        "Additive hypotension; separate dosing and start low."⟩ : Interaction) ≠
        ⟨"alphaBlockers+pde5i", "MEDIUM",
          "Additive hypotension; separate dosing and start low."⟩ ∧
      (goRunSafetyEngine d).riskScore =
        clamp (5 + findingWeights (goRunSafetyEngine d)) 0 100) ∧
    (goHasPDE5i d = true ∧ goHasCyp3a4 d = true →
      (⟨"Strong CYP3A4 inhibitor + PDE5i", "MEDIUM",
        "Higher PDE5i levels; use lowest dose and monitor."⟩ : Interaction) ∈
          (goRunSafetyEngine d).interactions ∧
      (⟨"cyp3a4Inhibitors+pde5i", "MEDIUM",
        "Higher PDE5i levels; use lowest dose and monitor."⟩ : Interaction) ∈
          (goRunSafetyEngine d).interactions ∧
      (⟨"Strong CYP3A4 inhibitor + PDE5i", "MEDIUM",
        "Higher PDE5i levels; use lowest dose and monitor."⟩ : Interaction) ≠
        ⟨"cyp3a4Inhibitors+pde5i", "MEDIUM",
          "Higher PDE5i levels; use lowest dose and monitor."⟩ ∧
      (goRunSafetyEngine d).riskScore =
        clamp (5 + findingWeights (goRunSafetyEngine d)) 0 100) ∧
    (jsRunSafetyEngine d).interactions = (goRunSafetyEngine d).interactions := by
  have hpde : ∀ meds, hasClassToken meds pde5iClass = true →
      hasClassTokenByName meds "pde5i" = true := fun _ h => h
  refine ⟨?_, ?_, ?_, ?_⟩
  · rintro ⟨hp, hn⟩
    have htab : (⟨"nitrates+pde5i", "HIGH",
        "Risk of profound hypotension; avoid co-administration."⟩ : Interaction) ∈
        ruleInteractions (goMeds d) :=
      mem_ruleInteractions (List.mem_cons_self _ _) rfl hn hp
    have hmem := goNitratePde5i_mem hp hn
    rw [goResult_interactions]
    exact ⟨hmem, mem_goInteractions_of_table htab, by decide,
      goRiskScore_clamp (goCount_ne_zero_of_mem_interactions hmem)⟩
  · rintro ⟨hp, ha⟩
    have hr : (⟨"alpha+pde5i", "interaction", "MEDIUM", ⟨"alphaBlockers", "pde5i", "", ""⟩,
        "Additive hypotension; separate dosing and start low."⟩ : Rule) ∈ ruleDB := by
      decide
    have htab := @mem_ruleInteractions (goMeds d) _ hr rfl ha hp
    have hmem := goAlphaPde5i_mem hp ha
    rw [goResult_interactions]
    exact ⟨hmem, mem_goInteractions_of_table htab, by decide,
      goRiskScore_clamp (goCount_ne_zero_of_mem_interactions hmem)⟩
  · rintro ⟨hp, hc⟩
    have hr : (⟨"cyp3a4+pde5i", "interaction", "MEDIUM", ⟨"cyp3a4Inhibitors", "pde5i", "", ""⟩,
        "Higher PDE5i levels; use lowest dose and monitor."⟩ : Rule) ∈ ruleDB := by
      decide
    have htab := @mem_ruleInteractions (goMeds d) _ hr rfl hc hp
    have hmem := goCypPde5i_mem hp hc
    rw [goResult_interactions]
    exact ⟨hmem, mem_goInteractions_of_table htab, by decide,
      goRiskScore_clamp (goCount_ne_zero_of_mem_interactions hmem)⟩
  · rw [goResult_interactions]
    rfl

/-- Witness for C7 at medications containing all four drug classes. -/
theorem c7_adhoc_and_table_both_fire_witness :
    (goHasPDE5i { medications := "sildenafil, nitroglycerin, tamsulosin, ketoconazole" } =
        true ∧
     goHasNitrates { medications := "sildenafil, nitroglycerin, tamsulosin, ketoconazole" } =
        true) ∧
    (⟨"Nitrates + PDE5i", "HIGH",
      "Risk of profound hypotension; avoid co-administration."⟩ : Interaction) ∈
      (goRunSafetyEngine
        { medications := "sildenafil, nitroglycerin, tamsulosin, ketoconazole" }).interactions ∧
    (⟨"nitrates+pde5i", "HIGH",
      "Risk of profound hypotension; avoid co-administration."⟩ : Interaction) ∈
      (goRunSafetyEngine
        { medications := "sildenafil, nitroglycerin, tamsulosin, ketoconazole" }).interactions :=
  ⟨⟨by decide, by decide⟩,
   ((c7_adhoc_and_table_both_fire
      { medications := "sildenafil, nitroglycerin, tamsulosin, ketoconazole" }).1
      ⟨by decide, by decide⟩).1,
   ((c7_adhoc_and_table_both_fire
      { medications := "sildenafil, nitroglycerin, tamsulosin, ketoconazole" }).1
      ⟨by decide, by decide⟩).2.1⟩

/-! ### C8: the interaction-list merge, characterised at the key level -/

/-- Severity rank recorded in the merge map under key `k`. -/
def rankAt (m : MergeMap) (k : String) : Option Nat :=
  (lookupKey k m).map (fun v => sevRank v.severity)

/-- Accumulate a maximum into an optional running maximum. -/
def omax : Option Nat → Nat → Option Nat
  | none, n => some n
  | some m, n => some (max m n)

/-- One fold step of the key-level abstraction of `insertItem`. -/
def bestStep (k : String) (acc : Option Nat) (i : MergeItem) : Option Nat :=
  if i.pair ≠ "" ∧ mergeKey i = k then omax acc (sevRank i.severity) else acc

/-- Highest severity rank among the entries of `l` that carry key `k`. -/
def bestRank (k : String) (l : List MergeItem) : Option Nat :=
  l.foldl (bestStep k) none

/-- Join of two optional maxima. -/
def omaxO : Option Nat → Option Nat → Option Nat
  | a, none => a
  | none, some b => some b
  | some a, some b => some (max a b)

lemma lookupKey_setEntry (k k' : String) (v : MergeItem) (m : MergeMap) :
    lookupKey k (setEntry k' v m) = if k' = k then some v else lookupKey k m := by
  induction m with
  | nil => rfl
  | cons hd t ih =>
    obtain ⟨k'', v''⟩ := hd
    unfold setEntry
    by_cases h1 : k'' = k'
    · subst h1
      unfold lookupKey
      by_cases h2 : k'' = k <;> simp [h2]
    · rw [if_neg h1]
      unfold lookupKey
      by_cases h2 : k'' = k
      · subst h2
        have h3 : ¬k' = k'' := fun h => h1 h.symm
        simp [h3]
      · simp [h2, ih]

lemma withSource_severity (i : MergeItem) (label : String) :
    (withSource i label).severity = i.severity := rfl

lemma rankAt_insertItem (label : String) (m : MergeMap) (i : MergeItem) (k : String) :
    rankAt (insertItem label m i) k = bestStep k (rankAt m k) i := by
  unfold insertItem bestStep
  by_cases hp : i.pair = ""
  · rw [if_pos hp, if_neg (by simp [hp])]
  · rw [if_neg hp]
    cases hl : lookupKey (mergeKey i) m with
    | none =>
      unfold rankAt
      rw [lookupKey_setEntry]
      by_cases hk : mergeKey i = k
      · rw [if_pos hk, if_pos ⟨hp, hk⟩]
        rw [show lookupKey k m = none from hk ▸ hl]
        rfl
      · rw [if_neg hk, if_neg (by tauto)]
    | some ex =>
      dsimp only
      by_cases hlt : sevRank ex.severity < sevRank i.severity
      · rw [if_pos hlt]
        unfold rankAt
        rw [lookupKey_setEntry]
        by_cases hk : mergeKey i = k
        · rw [if_pos hk, if_pos ⟨hp, hk⟩]
          rw [show lookupKey k m = some ex from hk ▸ hl]
          show some (sevRank i.severity) =
            some (max (sevRank ex.severity) (sevRank i.severity))
          rw [Nat.max_eq_right hlt.le]
        · rw [if_neg hk, if_neg (by tauto)]
      · rw [if_neg hlt]
        by_cases hk : mergeKey i = k
        · rw [if_pos ⟨hp, hk⟩]
          unfold rankAt
          rw [show lookupKey k m = some ex from hk ▸ hl]
          show some (sevRank ex.severity) =
            some (max (sevRank ex.severity) (sevRank i.severity))
          rw [Nat.max_eq_left (Nat.not_lt.mp hlt)]
        · rw [if_neg (by tauto)]

lemma rankAt_pushAll (label : String) (l : List MergeItem) : ∀ (m : MergeMap) (k : String),
    rankAt (pushAll label m l) k = l.foldl (bestStep k) (rankAt m k) := by
  induction l with
  | nil => intro m k; rfl
  | cons i t ih =>
    intro m k
    show rankAt (pushAll label (insertItem label m i) t) k = _
    rw [ih, rankAt_insertItem]
    rfl

lemma omaxO_none_left (b : Option Nat) : omaxO none b = b := by
  cases b <;> rfl

lemma foldl_bestStep_omaxO (k : String) (l : List MergeItem) : ∀ acc : Option Nat,
    l.foldl (bestStep k) acc = omaxO acc (bestRank k l) := by
  induction l with
  | nil => intro acc; cases acc <;> rfl
  | cons i t ih =>
    intro acc
    rw [List.foldl_cons, ih,
      show bestRank k (i :: t) = t.foldl (bestStep k) (bestStep k none i) from rfl,
      ih (bestStep k none i)]
    unfold bestStep
    by_cases hc : i.pair ≠ "" ∧ mergeKey i = k
    · rw [if_pos hc, if_pos hc]
      cases acc with
      | none => rw [omaxO_none_left]
      | some a =>
        cases hX : bestRank k t with
        | none => rfl
        | some b =>
          show omaxO (some (max a (sevRank i.severity))) (some b) =
            omaxO (some a) (omaxO (some (sevRank i.severity)) (some b))
          dsimp only [omaxO]
          rw [Nat.max_assoc]
    · rw [if_neg hc, if_neg hc, omaxO_none_left]

lemma bestRank_append (k : String) (A B : List MergeItem) :
    bestRank k (A ++ B) = omaxO (bestRank k A) (bestRank k B) := by
  unfold bestRank
  rw [List.foldl_append, foldl_bestStep_omaxO]
  rfl

lemma omaxO_comm (a b : Option Nat) : omaxO a b = omaxO b a := by
  cases a <;> cases b <;> simp [omaxO, Nat.max_comm]

/-- Key-level characterisation: the severity rank stored under any key of the
merge map is the maximum rank over all input entries with that key. -/
lemma rankAt_mergeMap (A B : List MergeItem) (k : String) :
    rankAt (mergeMap A B) k = bestRank k (A ++ B) := by
  unfold mergeMap
  rw [rankAt_pushAll, rankAt_pushAll,
    show rankAt ([] : MergeMap) k = none from rfl]
  show (B.foldl (bestStep k) (bestRank k A)) = _
  rw [foldl_bestStep_omaxO, bestRank_append]

lemma rankAt_mergeMap_comm (A B : List MergeItem) (k : String) :
    rankAt (mergeMap A B) k = rankAt (mergeMap B A) k := by
  rw [rankAt_mergeMap, rankAt_mergeMap, bestRank_append, bestRank_append, omaxO_comm]

/-- A severity string that the merge's rank table distinguishes. -/
def validSev (s : String) : Prop := s = "HIGH" ∨ s = "MEDIUM" ∨ s = "LOW"

instance (s : String) : Decidable (validSev s) := by
  unfold validSev
  infer_instance

def rankToSev : Nat → String
  | 0 => "LOW"
  | 1 => "MEDIUM"
  | _ => "HIGH"

lemma validSev_rankToSev {s : String} (h : validSev s) : rankToSev (sevRank s) = s := by
  rcases h with rfl | rfl | rfl <;> rfl

lemma lookup_pushAll_valid (label : String) : ∀ (l : List MergeItem) (m : MergeMap),
    (∀ i ∈ l, validSev i.severity) →
    (∀ k v, lookupKey k m = some v → validSev v.severity) →
    ∀ k v, lookupKey k (pushAll label m l) = some v → validSev v.severity := by
  intro l
  induction l with
  | nil => intro m _ hm k v h; exact hm k v h
  | cons i t ih =>
    intro m hl hm k v h
    have hi : validSev i.severity := hl i (List.mem_cons_self _ _)
    refine ih (insertItem label m i) (fun x hx => hl x (List.mem_cons_of_mem _ hx)) ?_ k v h
    intro k' v' h'
    unfold insertItem at h'
    by_cases hp : i.pair = ""
    · rw [if_pos hp] at h'
      exact hm k' v' h'
    · rw [if_neg hp] at h'
      cases hlk : lookupKey (mergeKey i) m with
      | none =>
        rw [hlk, lookupKey_setEntry] at h'
        by_cases hk : mergeKey i = k'
        · rw [if_pos hk] at h'
          cases h'
          exact hi
        · rw [if_neg hk] at h'
          exact hm k' v' h'
      | some ex =>
        rw [hlk] at h'
        dsimp only at h'
        by_cases hlt : sevRank ex.severity < sevRank i.severity
        · rw [if_pos hlt, lookupKey_setEntry] at h'
          by_cases hk : mergeKey i = k'
          · rw [if_pos hk] at h'
            cases h'
            exact hi
          · rw [if_neg hk] at h'
            exact hm k' v' h'
        · rw [if_neg hlt] at h'
          exact hm k' v' h'

lemma lookup_mergeMap_valid (A B : List MergeItem)
    (hA : ∀ i ∈ A, validSev i.severity) (hB : ∀ i ∈ B, validSev i.severity) :
    ∀ k v, lookupKey k (mergeMap A B) = some v → validSev v.severity := by
  unfold mergeMap
  refine lookup_pushAll_valid "rxnav" B (pushAll "rules" [] A) hB ?_
  refine lookup_pushAll_valid "rules" A [] hA ?_
  intro k v h
  cases h

/-- C8 (amended): the interaction-list merge is order-independent at the level
of keys and severities — the severity rank surviving under any key is the
maximum rank over all colliding entries of both inputs (so a collision between
different severities always keeps the higher one), and for valid severities
(HIGH/MEDIUM/LOW) the surviving severity string itself is the same whichever
list is processed first.  Full entries are not order-independent: the source
tag and the surviving representative of equal-rank collisions depend on the
processing order (see the counterexample). -/
theorem c8_merge_severity_commutes (A B : List MergeItem) :
    (∀ k, rankAt (mergeMap A B) k = bestRank k (A ++ B)) ∧
    (∀ k, rankAt (mergeMap A B) k = rankAt (mergeMap B A) k) ∧
    ((∀ i ∈ A, validSev i.severity) → (∀ i ∈ B, validSev i.severity) →
      ∀ k, (lookupKey k (mergeMap A B)).map (fun v => v.severity) =
           (lookupKey k (mergeMap B A)).map (fun v => v.severity)) := by
  refine ⟨fun k => rankAt_mergeMap A B k, fun k => rankAt_mergeMap_comm A B k, ?_⟩
  intro hA hB k
  have hrank := rankAt_mergeMap_comm A B k
  unfold rankAt at hrank
  cases h1 : lookupKey k (mergeMap A B) with
  | none =>
    cases h2 : lookupKey k (mergeMap B A) with
    | none => rfl
    | some v2 => rw [h1, h2] at hrank; cases hrank
  | some v1 =>
    cases h2 : lookupKey k (mergeMap B A) with
    | none => rw [h1, h2] at hrank; cases hrank
    | some v2 =>
      rw [h1, h2] at hrank
      have hr : sevRank v1.severity = sevRank v2.severity := by
        simpa using hrank
      have hv1 := lookup_mergeMap_valid A B hA hB k v1 h1
      have hv2 := lookup_mergeMap_valid B A hB hA k v2 h2
      simp only [Option.map_some']
      rw [show v1.severity = rankToSev (sevRank v1.severity) from
        (validSev_rankToSev hv1).symm, hr, validSev_rankToSev hv2]

/-- Witness for C8: a MEDIUM/HIGH collision on the same key, resolved to the
same severity in both processing orders. -/
theorem c8_merge_severity_commutes_witness :
    (∀ i ∈ [(⟨"A+B", "MEDIUM", "n", ""⟩ : MergeItem)], validSev i.severity) ∧
    (lookupKey "a+b|n"
        (mergeMap [⟨"A+B", "MEDIUM", "n", ""⟩] [⟨"a+b", "HIGH", "n", ""⟩])).map
        (fun v => v.severity) =
      (lookupKey "a+b|n"
        (mergeMap [⟨"a+b", "HIGH", "n", ""⟩] [⟨"A+B", "MEDIUM", "n", ""⟩])).map
        (fun v => v.severity) :=
  ⟨by decide,
   (c8_merge_severity_commutes [⟨"A+B", "MEDIUM", "n", ""⟩]
      [⟨"a+b", "HIGH", "n", ""⟩]).2.2 (by decide) (by decide) "a+b|n"⟩

/-- Counterexample to C8 as stated: merging a singleton with the empty list in
the two orders yields different entry sets — the surviving entry is tagged
"rules" in one order and "rxnav" in the other. -/
theorem c8_counterexample :
    (⟨"A+B", "HIGH", "n", "rules"⟩ : MergeItem) ∈
      mergeInteractionLists [⟨"A+B", "HIGH", "n", ""⟩] [] ∧
    (⟨"A+B", "HIGH", "n", "rules"⟩ : MergeItem) ∉
      mergeInteractionLists [] [⟨"A+B", "HIGH", "n", ""⟩] := by
  refine ⟨by decide, by decide⟩

/-! ### C9: merged risk level -/

/-- The higher of two risk-level strings under the rank LOW 0, MEDIUM 1,
HIGH 2 (ties keep the first argument, which for valid levels is the same
string). -/
def higherOf (a b : String) : String :=
  if rlRank (some b) ≤ rlRank (some a) then a else b

lemma jsRiskLevel_valid (d : PatientData) :
    (jsRunSafetyEngine d).riskLevel = "LOW" ∨ (jsRunSafetyEngine d).riskLevel = "MEDIUM" ∨
      (jsRunSafetyEngine d).riskLevel = "HIGH" := by
  show jsRiskLevel d = "LOW" ∨ jsRiskLevel d = "MEDIUM" ∨ jsRiskLevel d = "HIGH"
  unfold jsRiskLevel
  split
  · right; right; rfl
  · split
    · right; right; rfl
    · split
      · right; left; rfl
      · left; rfl

lemma mergeWithRules_riskLevel (model : ModelResult) (d : PatientData) :
    (mergeWithRules model d).riskLevel =
      higherRiskLevel model.riskLevel (some (jsRunSafetyEngine d).riskLevel) := by
  simp only [mergeWithRules]

/-- C9 (amended): whenever the model result carries a recognised risk level
(LOW, MEDIUM or HIGH), the reconciler's merged level is the higher of that
level and the rules engine's level, whose rank is the maximum of the two
ranks; the rules engine's own level is always recognised.  (When the model's
level is missing or unrecognised, `higherRiskLevel` returns it verbatim
whenever the rules' level is LOW — see the counterexample.) -/
theorem c9_merged_risk_level (model : ModelResult) (d : PatientData) (s : String)
    (hms : model.riskLevel = some s)
    (hv : s = "LOW" ∨ s = "MEDIUM" ∨ s = "HIGH") :
    (mergeWithRules model d).riskLevel =
      some (higherOf s (jsRunSafetyEngine d).riskLevel) ∧
    rlRank (some (higherOf s (jsRunSafetyEngine d).riskLevel)) =
      max (rlRank (some s)) (rlRank (some (jsRunSafetyEngine d).riskLevel)) ∧
    ((jsRunSafetyEngine d).riskLevel = "LOW" ∨ (jsRunSafetyEngine d).riskLevel = "MEDIUM" ∨
      (jsRunSafetyEngine d).riskLevel = "HIGH") := by
  refine ⟨?_, ?_, jsRiskLevel_valid d⟩
  · rw [mergeWithRules_riskLevel, hms]
    unfold higherRiskLevel higherOf
    by_cases hc : rlRank (some (jsRunSafetyEngine d).riskLevel) ≤ rlRank (some s) <;>
      simp [hc]
  · unfold higherOf
    by_cases hc : rlRank (some (jsRunSafetyEngine d).riskLevel) ≤ rlRank (some s)
    · rw [if_pos hc, Nat.max_eq_left hc]
    · rw [if_neg hc, Nat.max_eq_right (Nat.le_of_lt (Nat.lt_of_not_le hc))]

/-- Witness for C9: a model result carrying HIGH merged over the empty intake
(rules level LOW) yields HIGH. -/
theorem c9_merged_risk_level_witness :
    (({ riskLevel := some "HIGH" } : ModelResult).riskLevel = some "HIGH") ∧
    (mergeWithRules { riskLevel := some "HIGH" } {}).riskLevel =
      some (higherOf "HIGH" (jsRunSafetyEngine {}).riskLevel) :=
  ⟨rfl,
   (c9_merged_risk_level { riskLevel := some "HIGH" } {} "HIGH" rfl
     (Or.inr (Or.inr rfl))).1⟩

/-- Counterexample to C9 as stated: a model result with a missing risk level
merged over the empty intake (rules level LOW) yields a missing level, not the
claimed LOW ("unknown or missing treated as LOW"). -/
theorem c9_counterexample :
    (jsRunSafetyEngine {}).riskLevel = "LOW" ∧
    (mergeWithRules {} {}).riskLevel = none ∧
    (mergeWithRules {} {}).riskLevel ≠ some "LOW" := by
  have hlev : (jsRunSafetyEngine {}).riskLevel = "LOW" := by decide
  refine ⟨hlev, ?_, ?_⟩
  · rw [mergeWithRules_riskLevel, hlev]
    decide
  · rw [mergeWithRules_riskLevel, hlev]
    decide

end GoRocky
